import Mathlib

/-
Verification of the preference-driven inference orchestration subsystem of
the project-one dashboard: the bias quantizer (snapWeight), the request
weight builder, the result projection with field defaults, the request
coordinator state machine (generation tokens, demo mode, fallback on
failure), and the debounce timer for slider-driven runs.

All definitions are shallow embeddings of the TypeScript source in the
main page component (part_000): numbers become rationals, JSON payloads
become structures with Option fields, the React state plus refs become an
explicit record, and the asynchronous completions become events tagged
with the generation (AbortController identity) minted at dispatch time.
-/

namespace ProjectOne

/-- One recommendation entry as returned by the model API or the demo set. -/
structure Recommendation where
  action : String
  probability : ℚ
  rationale : Option String
deriving DecidableEq, Repr

/-- Cluster regime insight; optional fields mirror the TypeScript type. -/
structure ClusterInsight where
  id : ℤ
  label : Option String
  description : Option String
  drivers : Option (List String)
  metrics : Option (List (String × ℚ))
deriving DecidableEq, Repr

/-- The fixed demo recommendation list (DEMO_RECOMMENDATIONS). -/
def DEMO_RECOMMENDATIONS : List Recommendation :=
  [ { action := "restake", probability := 0.58,
      rationale := some "Price-weighted snapshot favours compounding rewards." },
    { action := "stake", probability := 0.29,
      rationale := some "Neutral stance keeps capital deployed in baseline pools." },
    { action := "liquid_stake", probability := 0.13,
      rationale := some "Liquidity optionality remains a secondary hedge." } ]

/-- The fixed demo cluster (DEMO_CLUSTER). -/
def DEMO_CLUSTER : ClusterInsight :=
  { id := 0,
    label := some "Restake skew",
    description := some "APR momentum trending higher alongside elevated withdrawer counts.",
    drivers := some
      [ "Daily APR sits near local highs with positive netflows.",
        "Depositors outpace withdrawers after semantic boost." ],
    metrics := some
      [ ("daily_apr", 0.0259), ("withdraw", -3200), ("deposit", 12500),
        ("daily_netflow", 9300), ("withdrawers", 58), ("depositors", 72) ] }

/-- The default narrative copy shown before or instead of a model narrative. -/
def DEFAULT_NARRATIVE : String :=
  "Models are syncing signals -- adjust the slider to see how focus shifts recommendations."

/-- The demo narrative copy. -/
def DEMO_NARRATIVE : String :=
  "Claude notes a restake tilt with liquidity hedges kept light; watch deposits outpacing withdrawals."

/-- Message set by the demo branch of runInference. -/
def DEMO_MESSAGE : String := "Demo snapshot loaded locally."

/-- Diagnostic message stored with the error fallback snapshot. -/
def FALLBACK_MESSAGE : String :=
  "Falling back to demo snapshot while the model API is unreachable."

/-- Message set at dispatch time for a debounce-triggered (auto) run. -/
def AUTO_MESSAGE : String := "Updating signals to reflect the slider."

/-- Message set at dispatch time for a manual run. -/
def MANUAL_MESSAGE : String := "Fetching the freshest signal mix."

/-- snapWeight from the source: value < 50 gives 50, otherwise 60. -/
def snapWeight (value : ℚ) : ℚ := if value < 50 then 50 else 60

/-- The request weight builder inlined in runInference:
priceWeight is effectiveBias / 100 clamped to the unit interval,
sentimentWeight is its complement. -/
def toRequestWeights (effectiveBias : ℚ) : ℚ × ℚ :=
  let priceWeight := min (max (effectiveBias / 100) 0) 1
  (priceWeight, 1 - priceWeight)

/-- Body of the POST request issued to the Signal Service. -/
structure InferenceRequest where
  priceWeight : ℚ
  sentimentWeight : ℚ
  wallet : Option String
deriving DecidableEq, Repr, Inhabited

/-- Decoded response body of the Signal Service; every field may be absent. -/
structure ResponseBody where
  recommendations : Option (List Recommendation)
  cluster : Option ClusterInsight
  message : Option String
  narrative : Option String
  generated_at : Option String
deriving DecidableEq, Repr

/-- Display-ready projection of a response body. -/
structure ProjectedResult where
  recommendations : List Recommendation
  cluster : Option ClusterInsight
  message : Option String
  lastRunAt : String
  narrative : String
deriving DecidableEq, Repr

/-- The projection applied in the success branch of runInference: each
absent optional field is replaced by its default; `now` is the clock
reading at projection time. -/
def project (body : ResponseBody) (now : String) : ProjectedResult :=
  { recommendations := body.recommendations.getD [],
    cluster := body.cluster,
    message := body.message,
    lastRunAt := body.generated_at.getD now,
    narrative := body.narrative.getD DEFAULT_NARRATIVE }

/-- Request status owned by the coordinator (recStatus). -/
inductive RecStatus
  | idle
  | loading
  | error
deriving DecidableEq, Repr

/-- Focus mode selection. -/
inductive FocusMode
  | price
  | sentiment
deriving DecidableEq, Repr

/-- Trigger of a run: debounce-driven (auto) or user-driven (manual). -/
inductive Trigger
  | auto
  | manual
deriving DecidableEq, Repr

/-- The coordinator state: the React state variables of the page component
together with the refs that matter for coordination.  `currentGen` is the
identity of the AbortController currently stored in inferenceController
(the generation token); `nextGen` mints fresh generations; a completion
whose generation differs from `currentGen` corresponds to a completion
whose controller has been aborted.  `pendingTimerBias` is the bias
captured by a pending debounce timeout, if any.  `dispatched` logs every
network call issued, paired with its generation. -/
structure AppState where
  weight : ℚ
  effectiveBias : ℚ
  focus : FocusMode
  wallet : String
  recStatus : RecStatus
  recommendations : List Recommendation
  clusterInsight : Option ClusterInsight
  modelMessage : Option String
  lastRunAt : Option String
  narrativeCopy : String
  currentGen : Option ℕ
  nextGen : ℕ
  pendingTimerBias : Option ℚ
  dispatched : List (ℕ × InferenceRequest)
deriving DecidableEq, Repr

/-- Initial state at session start: weight seeded from DEMO_WEIGHT,
effectiveBias already snapped, and the mount run of the debounce effect
has scheduled a timer carrying that bias. -/
def initState (demoWeight : ℚ) : AppState :=
  { weight := demoWeight,
    effectiveBias := snapWeight demoWeight,
    focus := .price,
    wallet := "",
    recStatus := .idle,
    recommendations := [],
    clusterInsight := none,
    modelMessage := none,
    lastRunAt := none,
    narrativeCopy := DEFAULT_NARRATIVE,
    currentGen := none,
    nextGen := 0,
    pendingTimerBias := some (snapWeight demoWeight),
    dispatched := [] }

/-- Events driving the coordinator.  Completions carry the generation of
the call they belong to and the clock reading at completion time. -/
inductive Event
  | sliderMove (value : ℚ)
  | focusToggle (mode : FocusMode)
  | walletInput (value : String)
  | manualRun (now : String)
  | timerFire (now : String)
  | netResolved (gen : ℕ) (body : ResponseBody) (now : String)
  | netFailed (gen : ℕ) (now : String)

/-- The demo branch of runInference: store the demo snapshot and go idle. -/
def applyDemoSnapshot (now : String) (s : AppState) : AppState :=
  { s with
    recommendations := DEMO_RECOMMENDATIONS,
    clusterInsight := some DEMO_CLUSTER,
    modelMessage := some DEMO_MESSAGE,
    lastRunAt := some now,
    narrativeCopy := DEMO_NARRATIVE,
    recStatus := .idle }

/-- The live branch of runInference up to the await: abort the previous
controller (implicitly: the old generation is no longer current), mint a
new generation, set loading status and the trigger-dependent message, and
issue the network call. -/
def dispatchCall (trigger : Trigger) (bias : ℚ) (includeWallet : Bool)
    (s : AppState) : AppState :=
  let w := toRequestWeights bias
  let req : InferenceRequest :=
    { priceWeight := w.1,
      sentimentWeight := w.2,
      wallet :=
        if includeWallet ∧ s.wallet.trim ≠ "" then some s.wallet.trim else none }
  { s with
    recStatus := .loading,
    modelMessage := some (if trigger = .auto then AUTO_MESSAGE else MANUAL_MESSAGE),
    currentGen := some s.nextGen,
    nextGen := s.nextGen + 1,
    dispatched := s.dispatched ++ [(s.nextGen, req)] }

/-- runInference: demo mode resolves locally with no network call,
otherwise a call is dispatched under a fresh generation. -/
def runInference (demo : Bool) (trigger : Trigger) (bias : ℚ)
    (includeWallet : Bool) (now : String) (s : AppState) : AppState :=
  if demo then applyDemoSnapshot now s
  else dispatchCall trigger bias includeWallet s

/-- One step of the coordinator.  Slider moves and focus toggles restart
the debounce timer exactly when the effect dependencies (weight via the
runInference closure, or effectiveBias) changed.  A completion whose
generation is not current corresponds to an aborted controller and is
discarded without touching the state. -/
def step (demo : Bool) (e : Event) (s : AppState) : AppState :=
  match e with
  | .sliderMove v =>
      let nb := snapWeight v
      let s1 := { s with
        weight := v,
        focus := if 50 ≤ nb then FocusMode.price else FocusMode.sentiment,
        effectiveBias := nb }
      if v = s.weight ∧ nb = s.effectiveBias then s1
      else { s1 with pendingTimerBias := some nb }
  | .focusToggle mode =>
      let nw : ℚ := if mode = .price then 75 else 25
      let nb := snapWeight nw
      let s1 := { s with focus := mode, weight := nw, effectiveBias := nb }
      if nw = s.weight ∧ nb = s.effectiveBias then s1
      else { s1 with pendingTimerBias := some nb }
  | .walletInput v => { s with wallet := v }
  | .manualRun now => runInference demo .manual s.effectiveBias true now s
  | .timerFire now =>
      match s.pendingTimerBias with
      | none => s
      | some b =>
          runInference demo (if demo then .manual else .auto) b false now
            { s with pendingTimerBias := none }
  | .netResolved gen body now =>
      if s.currentGen = some gen then
        let p := project body now
        { s with
          recommendations := p.recommendations,
          clusterInsight := p.cluster,
          modelMessage := p.message,
          lastRunAt := some p.lastRunAt,
          narrativeCopy := p.narrative,
          recStatus := .idle }
      else s
  | .netFailed gen now =>
      if s.currentGen = some gen then
        { s with
          recStatus := .error,
          recommendations := DEMO_RECOMMENDATIONS,
          clusterInsight := some DEMO_CLUSTER,
          modelMessage := some FALLBACK_MESSAGE,
          lastRunAt := some now,
          narrativeCopy := DEFAULT_NARRATIVE }
      else s

/-- States reachable from some session start under a fixed demo flag. -/
inductive Reachable (demo : Bool) : AppState → Prop
  | init (demoWeight : ℚ) : Reachable demo (initState demoWeight)
  | next (e : Event) {s : AppState} :
      Reachable demo s → Reachable demo (step demo e s)

/-- State of the timed debounce model: the slider weight, the snapped
bias, and the pending timeout as (fire time, captured bias). -/
structure DebounceState where
  weight : ℚ
  effectiveBias : ℚ
  timer : Option (ℚ × ℚ)
deriving DecidableEq, Repr

/-- The fixed debounce window of the effect (600 ms in live mode). -/
def debounceWindow : ℚ := 600

/-- Fire the pending timeout if its deadline has passed by time t,
appending the dispatched bias to the output log. -/
def fireIfDue (t : ℚ) (st : DebounceState × List ℚ) : DebounceState × List ℚ :=
  match st.1.timer with
  | some ft =>
      if ft.1 ≤ t then ({ st.1 with timer := none }, st.2 ++ [ft.2]) else st
  | none => st

/-- Process one slider event (time t, raw value v): any due timeout fires
first; then, when the weight or the snapped bias actually changes, the
effect re-runs and replaces the timeout with a fresh one at t plus the
window, capturing the new bias. -/
def applySliderEvent (t v : ℚ) (st : DebounceState × List ℚ) :
    DebounceState × List ℚ :=
  let st1 := fireIfDue t st
  let s := st1.1
  let nb := snapWeight v
  if v = s.weight ∧ nb = s.effectiveBias then st1
  else ({ weight := v, effectiveBias := nb, timer := some (t + debounceWindow, nb) }, st1.2)

/-- Run a trace of slider events from an initial debounce state and let
the final pending timeout fire once the trace has gone quiet: returns the
list of biases dispatched by the debounce path, in order. -/
def debounceRun (events : List (ℚ × ℚ)) (s0 : DebounceState) : List ℚ :=
  let final := events.foldl (fun st ev => applySliderEvent ev.1 ev.2 st) (s0, [])
  match final.1.timer with
  | some ft => final.2 ++ [ft.2]
  | none => final.2

/-- Applying a current-generation success completion stores the projected
response fields and returns the status to idle. -/
theorem step_netResolved_current (s : AppState) (g : ℕ) (body : ResponseBody) (now : String)
    (h : s.currentGen = some g) :
    step false (.netResolved g body now) s =
      { s with
        recommendations := body.recommendations.getD [],
        clusterInsight := body.cluster,
        modelMessage := body.message,
        lastRunAt := some (body.generated_at.getD now),
        narrativeCopy := body.narrative.getD DEFAULT_NARRATIVE,
        recStatus := RecStatus.idle } := by
  simp [step, h, project]

/-- A success completion whose generation is not current is discarded. -/
theorem step_netResolved_stale (s : AppState) (g : ℕ) (body : ResponseBody) (now : String)
    (h : s.currentGen ≠ some g) :
    step false (.netResolved g body now) s = s := by
  simp [step, h]

/-- A failure completion whose generation is not current is discarded. -/
theorem step_netFailed_stale (s : AppState) (g : ℕ) (now : String)
    (h : s.currentGen ≠ some g) :
    step false (.netFailed g now) s = s := by
  simp [step, h]

/-- In demo mode no event ever appends to the dispatch log. -/
theorem demo_dispatch_unchanged (s : AppState) (e : Event) :
    (step true e s).dispatched = s.dispatched := by
  cases e with
  | sliderMove v => simp only [step]; split <;> rfl
  | focusToggle m => simp only [step]; split <;> (split <;> rfl)
  | walletInput v => rfl
  | manualRun n => rfl
  | timerFire n =>
      cases h : s.pendingTimerBias with
      | none => simp [step, h]
      | some b => simp [step, h, runInference, applyDemoSnapshot]
  | netResolved g b n => simp only [step]; split <;> rfl
  | netFailed g n => simp only [step]; split <;> rfl

/-- A bias value produced by the quantizer: 50 or 60. -/
def GoodBias (q : ℚ) : Prop := q = 50 ∨ q = 60

/-- A request whose weight mix comes from a snapped bias. -/
def GoodRequest (r : InferenceRequest) : Prop :=
  (r.priceWeight = 1/2 ∧ r.sentimentWeight = 1/2) ∨
  (r.priceWeight = 3/5 ∧ r.sentimentWeight = 2/5)

/-- Coordinator invariant: the effective bias, any timer-captured bias,
and every logged request are snapped. -/
def StateInv (s : AppState) : Prop :=
  GoodBias s.effectiveBias ∧
  (∀ b : ℚ, s.pendingTimerBias = some b → GoodBias b) ∧
  (∀ p ∈ s.dispatched, GoodRequest p.2)

/-- The quantizer only ever outputs 50 or 60. -/
theorem snapWeight_goodBias (v : ℚ) : GoodBias (snapWeight v) := by
  unfold snapWeight GoodBias
  split
  · exact Or.inl rfl
  · exact Or.inr rfl

/-- A snapped bias turns into the weight mix (1/2, 1/2) or (3/5, 2/5). -/
theorem toRequestWeights_goodRequest (b : ℚ) (hb : GoodBias b) (w : Option String) :
    GoodRequest ⟨(toRequestWeights b).1, (toRequestWeights b).2, w⟩ := by
  rcases hb with h | h <;> subst h
  · left
    constructor <;> norm_num [toRequestWeights]
  · right
    constructor <;> norm_num [toRequestWeights]

/-- The invariant holds at session start for any configured weight. -/
theorem stateInv_init (demoWeight : ℚ) : StateInv (initState demoWeight) := by
  refine ⟨snapWeight_goodBias demoWeight, ?_, ?_⟩
  · intro b hb
    simp only [initState, Option.some.injEq] at hb
    exact hb ▸ snapWeight_goodBias demoWeight
  · intro p hp
    simp [initState] at hp

/-- Dispatching with a snapped bias preserves the invariant. -/
theorem stateInv_dispatchCall (s : AppState) (tr : Trigger) (b : ℚ) (iw : Bool)
    (hs : StateInv s) (hb : GoodBias b) : StateInv (dispatchCall tr b iw s) := by
  obtain ⟨h1, h2, h3⟩ := hs
  refine ⟨h1, h2, ?_⟩
  intro p hp
  simp only [dispatchCall, List.mem_append, List.mem_singleton] at hp
  rcases hp with hp | hp
  · exact h3 p hp
  · subst hp
    exact toRequestWeights_goodRequest b hb _

/-- Every coordinator step preserves the invariant. -/
theorem stateInv_step (demo : Bool) (e : Event) (s : AppState)
    (hs : StateInv s) : StateInv (step demo e s) := by
  obtain ⟨h1, h2, h3⟩ := hs
  cases e with
  | sliderMove v =>
      simp only [step]
      split
      · exact ⟨snapWeight_goodBias v, h2, h3⟩
      · refine ⟨snapWeight_goodBias v, ?_, h3⟩
        intro b hb
        simp only [Option.some.injEq] at hb
        exact hb ▸ snapWeight_goodBias v
  | focusToggle m =>
      simp only [step]
      split <;> split
      · exact ⟨snapWeight_goodBias 75, h2, h3⟩
      · refine ⟨snapWeight_goodBias 75, ?_, h3⟩
        intro b hb
        simp only [Option.some.injEq] at hb
        exact hb ▸ snapWeight_goodBias 75
      · exact ⟨snapWeight_goodBias 25, h2, h3⟩
      · refine ⟨snapWeight_goodBias 25, ?_, h3⟩
        intro b hb
        simp only [Option.some.injEq] at hb
        exact hb ▸ snapWeight_goodBias 25
  | walletInput v => exact ⟨h1, h2, h3⟩
  | manualRun n =>
      simp only [step, runInference]
      split
      · exact ⟨h1, h2, h3⟩
      · exact stateInv_dispatchCall s _ _ _ ⟨h1, h2, h3⟩ h1
  | timerFire n =>
      simp only [step]
      cases hp : s.pendingTimerBias with
      | none => exact ⟨h1, h2, h3⟩
      | some b =>
          simp only [runInference]
          split
          · exact ⟨h1, fun b hb => by simp [applyDemoSnapshot] at hb, h3⟩
          · exact stateInv_dispatchCall _ _ _ _
              ⟨h1, fun b hb => by simp at hb, h3⟩ (h2 b hp)
  | netResolved g body n =>
      simp only [step]
      split
      · exact ⟨h1, h2, h3⟩
      · exact ⟨h1, h2, h3⟩
  | netFailed g n =>
      simp only [step]
      split
      · exact ⟨h1, h2, h3⟩
      · exact ⟨h1, h2, h3⟩

/-- Claim C1: results are applied in dispatch order, not completion order.
After requests A and B are dispatched in that order, the completion of A
(its generation is stale) is unconditionally discarded with no state
change, both before and after the completion of B is applied, and once B
resolves the stored result is exactly the projection of the response of
B, with status idle. -/
theorem results_applied_in_dispatch_order (s0 : AppState) (bodyA bodyB : ResponseBody)
    (tA tB nA nB : String) :
    step false (.netResolved s0.nextGen bodyA nA)
        (step false (.manualRun tB) (step false (.manualRun tA) s0))
      = step false (.manualRun tB) (step false (.manualRun tA) s0) ∧
    step false (.netResolved s0.nextGen bodyA nA)
        (step false (.netResolved (s0.nextGen + 1) bodyB nB)
          (step false (.manualRun tB) (step false (.manualRun tA) s0)))
      = step false (.netResolved (s0.nextGen + 1) bodyB nB)
          (step false (.manualRun tB) (step false (.manualRun tA) s0)) ∧
    (step false (.netResolved (s0.nextGen + 1) bodyB nB)
        (step false (.manualRun tB) (step false (.manualRun tA) s0))).recommendations
      = bodyB.recommendations.getD [] ∧
    (step false (.netResolved (s0.nextGen + 1) bodyB nB)
        (step false (.manualRun tB) (step false (.manualRun tA) s0))).clusterInsight
      = bodyB.cluster ∧
    (step false (.netResolved (s0.nextGen + 1) bodyB nB)
        (step false (.manualRun tB) (step false (.manualRun tA) s0))).narrativeCopy
      = bodyB.narrative.getD DEFAULT_NARRATIVE ∧
    (step false (.netResolved (s0.nextGen + 1) bodyB nB)
        (step false (.manualRun tB) (step false (.manualRun tA) s0))).modelMessage
      = bodyB.message ∧
    (step false (.netResolved (s0.nextGen + 1) bodyB nB)
        (step false (.manualRun tB) (step false (.manualRun tA) s0))).recStatus
      = RecStatus.idle := by
  have hBcur : (step false (.manualRun tB) (step false (.manualRun tA) s0)).currentGen
      = some (s0.nextGen + 1) := rfl
  have hstale : (step false (.manualRun tB) (step false (.manualRun tA) s0)).currentGen
      ≠ some s0.nextGen := by
    rw [hBcur]; simp
  rw [step_netResolved_current _ _ bodyB nB hBcur]
  exact ⟨step_netResolved_stale _ _ bodyA nA hstale,
    step_netResolved_stale _ _ bodyA nA hstale, rfl, rfl, rfl, rfl, rfl⟩

/-- Claim C2 counterexample: a ManualRun does NOT invalidate a pending
debounce timer.  After a slider move arms the timer, a ManualRun leaves
the timer armed (still carrying bias 60), and when that timer later fires
it dispatches a second network call. -/
theorem manualRun_leaves_timer_cex :
    (step false (.sliderMove 70) (initState 65)).pendingTimerBias = some 60 ∧
    (step false (.manualRun "T1")
        (step false (.sliderMove 70) (initState 65))).pendingTimerBias = some 60 ∧
    (step false (.timerFire "T2") (step false (.manualRun "T1")
        (step false (.sliderMove 70) (initState 65)))).dispatched.length = 2 := by
  refine ⟨?_, ?_, ?_⟩ <;>
    norm_num [step, initState, runInference, dispatchCall, snapWeight, toRequestWeights]

/-- Claim C2 (amended): a ManualRun immediately invalidates any in-flight
network call by minting a fresh generation, and a completion (success or
failure) matching the invalidated generation never alters the stored
state; the pending debounce timer, however, is left untouched. -/
theorem manualRun_invalidates_inflight (s : AppState) (g : ℕ) (body : ResponseBody)
    (t nA nB : String) (h : s.currentGen = some g) (hg : g < s.nextGen) :
    (step false (.manualRun t) s).currentGen = some s.nextGen ∧
    step false (.netResolved g body nA) (step false (.manualRun t) s)
      = step false (.manualRun t) s ∧
    step false (.netFailed g nB) (step false (.manualRun t) s)
      = step false (.manualRun t) s ∧
    (step false (.manualRun t) s).pendingTimerBias = s.pendingTimerBias := by
  have hc : (step false (.manualRun t) s).currentGen = some s.nextGen := rfl
  have hne : (step false (.manualRun t) s).currentGen ≠ some g := by
    rw [hc]
    simp only [ne_eq, Option.some.injEq]
    omega
  exact ⟨hc, step_netResolved_stale _ _ body nA hne, step_netFailed_stale _ _ nB hne, rfl⟩

/-- Claim C2 witness: the amended theorem applied after a first ManualRun
has put generation 0 in flight. -/
theorem manualRun_invalidates_inflight_witness :
    ((step false (.manualRun "T0") (initState 65)).currentGen = some 0 ∧
      0 < (step false (.manualRun "T0") (initState 65)).nextGen) ∧
    (step false (.manualRun "T1") (step false (.manualRun "T0") (initState 65))).currentGen
      = some (step false (.manualRun "T0") (initState 65)).nextGen ∧
    step false (.netResolved 0 ⟨none, none, none, none, none⟩ "A")
        (step false (.manualRun "T1") (step false (.manualRun "T0") (initState 65)))
      = step false (.manualRun "T1") (step false (.manualRun "T0") (initState 65)) ∧
    step false (.netFailed 0 "B")
        (step false (.manualRun "T1") (step false (.manualRun "T0") (initState 65)))
      = step false (.manualRun "T1") (step false (.manualRun "T0") (initState 65)) ∧
    (step false (.manualRun "T1") (step false (.manualRun "T0") (initState 65))).pendingTimerBias
      = (step false (.manualRun "T0") (initState 65)).pendingTimerBias := by
  have hcg : (step false (.manualRun "T0") (initState 65)).currentGen = some 0 := rfl
  have hng : 0 < (step false (.manualRun "T0") (initState 65)).nextGen := by
    norm_num [step, initState, runInference, dispatchCall]
  have h := manualRun_invalidates_inflight (step false (.manualRun "T0") (initState 65)) 0
    ⟨none, none, none, none, none⟩ "T1" "A" "B" hcg hng
  exact ⟨⟨hcg, hng⟩, h.1, h.2.1, h.2.2.1, h.2.2.2⟩

/-- Claim C3 counterexample: after a genuine failure of the
current-generation call the status is Error and stays Error once the
fallback snapshot and diagnostic message are stored; it does not
transition to Idle. -/
theorem transport_failure_stays_error_cex :
    ((step false (.netFailed 0 "T1") (step false (.manualRun "T0") (initState 65))).recStatus
      = RecStatus.error) ∧
    ((step false (.netFailed 0 "T1") (step false (.manualRun "T0") (initState 65))).recStatus
      ≠ RecStatus.idle) ∧
    ((step false (.netFailed 0 "T1") (step false (.manualRun "T0") (initState 65))).recommendations
      = DEMO_RECOMMENDATIONS) ∧
    ((step false (.netFailed 0 "T1") (step false (.manualRun "T0") (initState 65))).modelMessage
      = some FALLBACK_MESSAGE) := by
  have h1 : (step false (.netFailed 0 "T1")
      (step false (.manualRun "T0") (initState 65))).recStatus = RecStatus.error := by
    norm_num [step, initState, runInference, dispatchCall, snapWeight]
  refine ⟨h1, by rw [h1]; decide, ?_, ?_⟩ <;>
    norm_num [step, initState, runInference, dispatchCall, snapWeight]

/-- Claim C3 (amended): on a genuine failure of the current-generation
call the coordinator stores the fixed fallback snapshot and the fixed
diagnostic message and transitions the status to Error, where it remains
(there is no immediate transition back to Idle). -/
theorem transport_failure_fallback (s : AppState) (g : ℕ) (now : String)
    (h : s.currentGen = some g) :
    (step false (.netFailed g now) s).recStatus = RecStatus.error ∧
    (step false (.netFailed g now) s).recommendations = DEMO_RECOMMENDATIONS ∧
    (step false (.netFailed g now) s).clusterInsight = some DEMO_CLUSTER ∧
    (step false (.netFailed g now) s).modelMessage = some FALLBACK_MESSAGE ∧
    (step false (.netFailed g now) s).narrativeCopy = DEFAULT_NARRATIVE ∧
    (step false (.netFailed g now) s).lastRunAt = some now := by
  simp [step, h]

/-- Claim C3 witness: the amended theorem applied to the state with
generation 0 in flight. -/
theorem transport_failure_fallback_witness :
    (step false (.manualRun "T0") (initState 65)).currentGen = some 0 ∧
    (step false (.netFailed 0 "T1") (step false (.manualRun "T0") (initState 65))).recStatus
      = RecStatus.error := by
  have hc : (step false (.manualRun "T0") (initState 65)).currentGen = some 0 := by
    norm_num [step, initState, runInference, dispatchCall]
  exact ⟨hc, (transport_failure_fallback _ 0 "T1" hc).1⟩

/-- Claim C4: snapWeight is a two-valued step function: 50 on [0, 49] and
60 on [50, 100], with the four literal cases of the spec. -/
theorem snapWeight_two_valued :
    (∀ w : ℚ, 0 ≤ w → w ≤ 49 → snapWeight w = 50) ∧
    (∀ w : ℚ, 50 ≤ w → w ≤ 100 → snapWeight w = 60) ∧
    snapWeight 0 = 50 ∧ snapWeight 49 = 50 ∧ snapWeight 50 = 60 ∧ snapWeight 100 = 60 := by
  refine ⟨?_, ?_, by norm_num [snapWeight], by norm_num [snapWeight],
    by norm_num [snapWeight], by norm_num [snapWeight]⟩
  · intro w _ hw
    simp only [snapWeight, if_pos (by linarith : w < 50)]
  · intro w hw _
    simp only [snapWeight, if_neg (by linarith : ¬ w < 50)]

/-- Claim C4 witness: the two range cases evaluated at 7 and 80. -/
theorem snapWeight_two_valued_witness :
    snapWeight 7 = 50 ∧ snapWeight 80 = 60 :=
  ⟨snapWeight_two_valued.1 7 (by norm_num) (by norm_num),
   snapWeight_two_valued.2.1 80 (by norm_num) (by norm_num)⟩

/-- Claim C5: with demo signals enabled, no event ever issues a network
call, and both a ManualRun and a debounce-timer fired run store the fixed
demo recommendations, demo cluster and demo narrative and leave the
coordinator idle, for every state (hence for every wallet hint and bias). -/
theorem demo_mode_local_resolution (s : AppState) (now : String) (e : Event) :
    (step true e s).dispatched = s.dispatched ∧
    ((step true (.manualRun now) s).recommendations = DEMO_RECOMMENDATIONS ∧
     (step true (.manualRun now) s).clusterInsight = some DEMO_CLUSTER ∧
     (step true (.manualRun now) s).narrativeCopy = DEMO_NARRATIVE ∧
     (step true (.manualRun now) s).recStatus = RecStatus.idle) ∧
    (∀ b : ℚ, s.pendingTimerBias = some b →
      (step true (.timerFire now) s).recommendations = DEMO_RECOMMENDATIONS ∧
      (step true (.timerFire now) s).clusterInsight = some DEMO_CLUSTER ∧
      (step true (.timerFire now) s).narrativeCopy = DEMO_NARRATIVE ∧
      (step true (.timerFire now) s).recStatus = RecStatus.idle) := by
  refine ⟨demo_dispatch_unchanged s e, ?_, ?_⟩
  · simp [step, runInference, applyDemoSnapshot]
  · intro b hb
    simp [step, hb, runInference, applyDemoSnapshot]

/-- Claim C5 witness: the demo theorem applied at the initial state,
whose mount timer carries bias 60. -/
theorem demo_mode_local_resolution_witness :
    (initState 65).pendingTimerBias = some 60 ∧
    (step true (.timerFire "T") (initState 65)).recommendations = DEMO_RECOMMENDATIONS := by
  have h := demo_mode_local_resolution (initState 65) "T" (.manualRun "T")
  exact ⟨by norm_num [initState, snapWeight],
    (h.2.2 60 (by norm_num [initState, snapWeight])).1⟩

/-- Claim C6: with slider events at t=0 (value 50), t=100 (value 55,
snapping to 60) and t=150 (value 60) inside a 600 ms debounce window,
exactly one call is dispatched and it carries the last bias, 60. -/
theorem debounce_single_dispatch :
    debounceRun [(0, 50), (100, 55), (150, 60)] ⟨65, 60, none⟩ = [60] := by
  norm_num [debounceRun, applySliderEvent, fireIfDue, snapWeight, debounceWindow]

/-- Claim C7: a completion of a cancelled (non-current generation) call,
whether success or rejection, leaves the whole state unchanged; in
particular it never produces an Error transition. -/
theorem cancelled_completion_discarded (s : AppState) (g : ℕ) (body : ResponseBody)
    (nA nB : String) (h : s.currentGen ≠ some g) :
    step false (.netResolved g body nA) s = s ∧ step false (.netFailed g nB) s = s := by
  constructor <;> simp [step, h]

/-- Claim C7 witness: the discard theorem applied at the initial state,
where no generation is current. -/
theorem cancelled_completion_discarded_witness :
    (initState 65).currentGen ≠ some 0 ∧
    step false (.netResolved 0 ⟨none, none, none, none, none⟩ "A") (initState 65)
      = initState 65 ∧
    step false (.netFailed 0 "B") (initState 65) = initState 65 := by
  have hne : (initState 65).currentGen ≠ some 0 := by simp [initState]
  have h := cancelled_completion_discarded (initState 65) 0
    ⟨none, none, none, none, none⟩ "A" "B" hne
  exact ⟨hne, h.1, h.2⟩

/-- Claim C8: for every effectiveBias, the request weights are the
clamped bias over 100 and its complement, they sum to exactly 1, and the
price weight lies in the unit interval. -/
theorem toRequestWeights_complementary (b : ℚ) :
    (toRequestWeights b).1 = min (max (b / 100) 0) 1 ∧
    (toRequestWeights b).2 = 1 - (toRequestWeights b).1 ∧
    (toRequestWeights b).1 + (toRequestWeights b).2 = 1 ∧
    0 ≤ (toRequestWeights b).1 ∧ (toRequestWeights b).1 ≤ 1 := by
  refine ⟨rfl, rfl, by simp [toRequestWeights], ?_, ?_⟩
  · exact le_min (le_max_right _ _) zero_le_one
  · exact min_le_right _ _

/-- Claim C9: projection defaults field by field — absent recommendations
become the empty list, an absent cluster stays absent, an absent
narrative becomes the fixed default narrative, an absent generated_at
becomes the projection-time clock reading — and projection is total. -/
theorem project_field_defaults (body : ResponseBody) (now : String) :
    (body.recommendations = none → (project body now).recommendations = []) ∧
    (body.cluster = none → (project body now).cluster = none) ∧
    (body.narrative = none → (project body now).narrative = DEFAULT_NARRATIVE) ∧
    (body.generated_at = none → (project body now).lastRunAt = now) ∧
    (project body now).message = body.message := by
  refine ⟨?_, ?_, ?_, ?_, rfl⟩ <;> intro h <;> simp [project, h]

/-- Claim C9 witness: the defaulting theorem applied to the payload with
every optional field absent. -/
theorem project_field_defaults_witness :
    (project ⟨none, none, none, none, none⟩ "T").recommendations = [] ∧
    (project ⟨none, none, none, none, none⟩ "T").cluster = none ∧
    (project ⟨none, none, none, none, none⟩ "T").narrative = DEFAULT_NARRATIVE ∧
    (project ⟨none, none, none, none, none⟩ "T").lastRunAt = "T" := by
  have h := project_field_defaults ⟨none, none, none, none, none⟩ "T"
  exact ⟨h.1 rfl, h.2.1 rfl, h.2.2.1 rfl, h.2.2.2.1 rfl⟩

/-- Claim C10: in every reachable state, every request ever dispatched
carries a snapped weight mix — price weight 1/2 with sentiment weight
1/2, or price weight 3/5 with sentiment weight 2/5 — because the
effective bias fed to the request builder is always in the set of snapped
values at session start, after every slider move and after every focus
toggle. -/
theorem dispatched_requests_snapped (demo : Bool) (s : AppState)
    (hreach : Reachable demo s) :
    ∀ p ∈ s.dispatched,
      (p.2.priceWeight = 1/2 ∧ p.2.sentimentWeight = 1/2) ∨
      (p.2.priceWeight = 3/5 ∧ p.2.sentimentWeight = 2/5) := by
  have hinv : StateInv s := by
    induction hreach with
    | init w => exact stateInv_init w
    | next e h ih => exact stateInv_step _ e _ ih
  exact hinv.2.2

/-- Claim C10 witness: the invariant applied to the request logged by the
first ManualRun from the initial state (bias 60, so weights 3/5, 2/5). -/
theorem dispatched_requests_snapped_witness :
    (step false (.manualRun "T") (initState 65)).dispatched.length = 1 ∧
    (((step false (.manualRun "T") (initState 65)).dispatched.headI.2.priceWeight = 1/2 ∧
      (step false (.manualRun "T") (initState 65)).dispatched.headI.2.sentimentWeight = 1/2) ∨
     ((step false (.manualRun "T") (initState 65)).dispatched.headI.2.priceWeight = 3/5 ∧
      (step false (.manualRun "T") (initState 65)).dispatched.headI.2.sentimentWeight = 2/5)) := by
  have hmem : (step false (.manualRun "T") (initState 65)).dispatched.headI
      ∈ (step false (.manualRun "T") (initState 65)).dispatched := by
    simp [step, initState, runInference, dispatchCall]
  refine ⟨?_,
    dispatched_requests_snapped false _
      (Reachable.next (.manualRun "T") (Reachable.init 65)) _ hmem⟩
  simp [step, initState, runInference, dispatchCall]

end ProjectOne
